import Mathlib

/-!
Verification of the row/selection state model of `src/ts/entities/rowNode.ts`
(ag-grid v12). The `RowNode` class is embedded shallowly:

* a `RowNode` structure mirrors the mutable fields of the TypeScript class;
  JavaScript values that can be `undefined`, `null`, a number or a boolean are
  modelled by the `JsVal` inductive so that strict equality (`===`) is plain
  equality on `JsVal`;
* node-local methods (`setData`, `updateData`, `setDataAndId`, `setAggData`,
  the field setters, the listener registry) become pure functions
  `RowNode → ... → RowNode × List Event`, where the `Event` trace records the
  locally dispatched events together with calls into external collaborators
  (the selection registry's `syncInRowNode`, the global event bus);
* the tree-level selection algorithms (`setSelectedParams`,
  `doRowRangeSelection`, `calculateSelectedFromChildren`, ...) become
  functions over a `GridState` holding the node store (nodes are addressed by
  their index), the event trace, and the row-model views; the selection
  registry's anchor (`getLastSelectedNode` / `setLastSelectedNode`) is passed
  and returned explicitly; recursion through node links uses explicit fuel,
  with `none` meaning a JavaScript crash or non-termination.
-/

/-- JavaScript primitive value as stored in the plain mutable fields of a
`RowNode` (`rowTop`, `rowIndex`, `firstChild`, `expanded`, ...). Fields start
out `undefined`; strict equality `===` is equality on this type. -/
inductive JsVal where
  | undef : JsVal
  | null : JsVal
  | num : Int → JsVal
  | bool : Bool → JsVal
deriving DecidableEq, Repr

/-- A JavaScript object used as a row-data or aggregation payload: an
association list from column ids to (numeric) values. Property lookup is the
first matching key. -/
abbrev Obj := List (String × Int)

/-- Embedding of the mutable fields of the `RowNode` class that the verified
operations touch. Node-to-node references (`parent`, `sibling`, the children
arrays) are indices into the `GridState` node store. Defaults are the
TypeScript initial values: everything starts `undefined` except
`selected = false` (`private selected = false;`) and the absent listener
registry (`eventService`). -/
structure RowNode where
  id : Option String := none
  data : Option Obj := none
  aggData : Option Obj := none
  level : JsVal := JsVal.undef
  uiLevel : JsVal := JsVal.undef
  parent : Option Nat := none
  childrenAfterGroup : Option (List Nat) := none
  childrenAfterFilter : Option (List Nat) := none
  allChildrenCount : JsVal := JsVal.undef
  firstChild : JsVal := JsVal.undef
  lastChild : JsVal := JsVal.undef
  childIndex : JsVal := JsVal.undef
  rowIndex : JsVal := JsVal.undef
  rowTop : JsVal := JsVal.undef
  oldRowTop : JsVal := JsVal.undef
  rowHeight : JsVal := JsVal.undef
  expanded : JsVal := JsVal.undef
  floating : Option String := none
  footer : Bool := false
  sibling : Option Nat := none
  group : Bool := false
  daemon : Bool := false
  selected : Option Bool := some false
  eventService : Option (List (String × Nat)) := none
deriving DecidableEq, Repr

/-- Counterpart of `new RowNode()` (followed by `context.wireBean`, which only
injects collaborators and touches no field). -/
def newRowNode : RowNode := {}

/-- JavaScript truthiness of an optional string (used for `this.floating`):
`undefined` and `null` are falsy, and so is the empty string. -/
def jsTruthy (s : Option String) : Bool :=
  match s with
  | none => false
  | some str => !(str == ("" : String))

/-- Events dispatched on the node's local listener registry, plus the calls
into external collaborators (global event bus, selection registry) that the
verified operations perform, in order. Local events are recorded only when
the node's lazily created listener registry exists, mirroring
`dispatchLocalEvent`. -/
inductive Event where
  | dataChanged : Option Obj → Option Obj → Option Bool → Event
  | cellChanged : String → Option Int → Event
  | topChanged : Event
  | firstChildChanged : Event
  | lastChildChanged : Event
  | childIndexChanged : Event
  | allChildrenCountChanged : Event
  | heightChanged : Event
  | rowIndexChanged : Event
  | uiLevelChanged : Event
  | expandedChanged : Event
  | rowGroupOpened : Event
  | rowSelectedLocal : Nat → Event
  | rowSelectedGlobal : Nat → Event
  | selectionChanged : Event
  | syncInRowNode : RowNode → Option RowNode → Event
deriving DecidableEq, Repr

/-- Read-only grid configuration consumed by `RowNode`
(`gridOptionsWrapper` flags and the optional user row-id resolver, plus the
row model kind used by the range-selection guard). -/
structure Config where
  groupSelectsChildren : Bool := false
  rowSelectionMulti : Bool := false
  rowModelNormal : Bool := true
  getRowNodeId : Option (Obj → String) := none

/-- Named-parameter bundle of `setSelectedParams`. All members are optional
in TypeScript; the implementation coerces each with `=== true`. -/
structure SetSelectedParams where
  newValue : Option Bool := none
  clearSelection : Option Bool := none
  tailingNodeInSequence : Option Bool := none
  rangeSelect : Option Bool := none
  groupSelectsFiltered : Option Bool := none
deriving DecidableEq, Repr

namespace RowNode

/-- Embedding of `RowNode.setData`: replace `data`, dispatch a local
`dataChanged` event with `update: false` (delivered only when the listener
registry exists, mirroring `dispatchLocalEvent`). -/
def setData (n : RowNode) (data : Option Obj) : RowNode × List Event :=
  let oldData := n.data
  let n' := { n with data := data }
  (n', if n'.eventService.isSome then [Event.dataChanged oldData data (some false)] else [])

/-- Embedding of `RowNode.updateData`: replace `data`, dispatch a local
`dataChanged` event with `update: true`. -/
def updateData (n : RowNode) (data : Option Obj) : RowNode × List Event :=
  let oldData := n.data
  let n' := { n with data := data }
  (n', if n'.eventService.isSome then [Event.dataChanged oldData data (some true)] else [])

/-- Embedding of `RowNode.createDaemonNode`: a fresh node with the current
node's `id`, `data`, `selected` and `level` copied and `daemon = true`. -/
def createDaemonNode (n : RowNode) : RowNode :=
  { newRowNode with
    id := n.id
    data := n.data
    daemon := true
    selected := n.selected
    level := n.level }

/-- Embedding of `RowNode.setId`: if a row-id resolver is configured, derive
the id from the data when data is present (else clear the id to undefined);
otherwise take the supplied id verbatim. -/
def setId (cfg : Config) (n : RowNode) (idArg : Option String) : RowNode :=
  match cfg.getRowNodeId with
  | some f =>
    match n.data with
    | some d => { n with id := some (f d) }
    | none => { n with id := none }
  | none => { n with id := idArg }

/-- Embedding of `RowNode.setDataAndId`: snapshot a daemon when the node
already has an id (`_.exists(this.id)`), assign the data, recompute the id
via `setId`, call the selection registry's `syncInRowNode` with the live node
and the daemon, then dispatch a local `dataChanged` event (no `update`
member on the payload, hence `none`). -/
def setDataAndId (cfg : Config) (n : RowNode) (data : Option Obj) (idArg : Option String) :
    RowNode × List Event :=
  let oldNode : Option RowNode := if n.id.isSome then some n.createDaemonNode else none
  let oldData := n.data
  let n1 := { n with data := data }
  let n2 := setId cfg n1 idArg
  let evs := [Event.syncInRowNode n2 oldNode]
  (n2, if n2.eventService.isSome then evs ++ [Event.dataChanged oldData data none] else evs)

/-- Embedding of `RowNode.setFirstChild`: no-op when the new value is
strictly equal to the current one, else assign and dispatch. -/
def setFirstChild (n : RowNode) (v : JsVal) : RowNode × List Event :=
  if n.firstChild = v then (n, [])
  else ({ n with firstChild := v },
    if n.eventService.isSome then [Event.firstChildChanged] else [])

/-- Embedding of `RowNode.setLastChild`. -/
def setLastChild (n : RowNode) (v : JsVal) : RowNode × List Event :=
  if n.lastChild = v then (n, [])
  else ({ n with lastChild := v },
    if n.eventService.isSome then [Event.lastChildChanged] else [])

/-- Embedding of `RowNode.setChildIndex`. -/
def setChildIndex (n : RowNode) (v : JsVal) : RowNode × List Event :=
  if n.childIndex = v then (n, [])
  else ({ n with childIndex := v },
    if n.eventService.isSome then [Event.childIndexChanged] else [])

/-- Embedding of `RowNode.setRowTop`. -/
def setRowTop (n : RowNode) (v : JsVal) : RowNode × List Event :=
  if n.rowTop = v then (n, [])
  else ({ n with rowTop := v },
    if n.eventService.isSome then [Event.topChanged] else [])

/-- Embedding of `RowNode.setAllChildrenCount`. -/
def setAllChildrenCount (n : RowNode) (v : JsVal) : RowNode × List Event :=
  if n.allChildrenCount = v then (n, [])
  else ({ n with allChildrenCount := v },
    if n.eventService.isSome then [Event.allChildrenCountChanged] else [])

/-- Embedding of `RowNode.setRowHeight`: the source has no equality guard
here, it always assigns and (when a listener registry exists) fires. -/
def setRowHeight (n : RowNode) (v : JsVal) : RowNode × List Event :=
  ({ n with rowHeight := v },
    if n.eventService.isSome then [Event.heightChanged] else [])

/-- Embedding of `RowNode.setRowIndex`: like `setRowHeight`, the source has
no equality guard here. -/
def setRowIndex (n : RowNode) (v : JsVal) : RowNode × List Event :=
  ({ n with rowIndex := v },
    if n.eventService.isSome then [Event.rowIndexChanged] else [])

/-- Embedding of `RowNode.setUiLevel`. -/
def setUiLevel (n : RowNode) (v : JsVal) : RowNode × List Event :=
  if n.uiLevel = v then (n, [])
  else ({ n with uiLevel := v },
    if n.eventService.isSome then [Event.uiLevelChanged] else [])

/-- Embedding of `RowNode.setExpanded`: equality-guarded; on a change it
dispatches the local `expandedChanged` event (registry permitting) and then
always dispatches the global `rowGroupOpened` event on the main event bus. -/
def setExpanded (n : RowNode) (v : JsVal) : RowNode × List Event :=
  if n.expanded = v then (n, [])
  else ({ n with expanded := v },
    (if n.eventService.isSome then [Event.expandedChanged] else []) ++ [Event.rowGroupOpened])

/-- Modelled from the spec: `Utils.getAllKeysInObjects` (`utils.ts`, which is
not among the given sources) — "compute the union of column keys present in
old and new aggregate data (so removed keys also raise change
notifications)". Keys are collected left to right, skipping keys already
collected. -/
def getAllKeysInObjects (objs : List (Option Obj)) : List String :=
  objs.foldl
    (fun acc o =>
      ((o.getD []).map Prod.fst).foldl
        (fun acc2 k => if k ∈ acc2 then acc2 else acc2 ++ [k]) acc)
    []

/-- JavaScript expression `this.data ? this.data[colId] : undefined`: an
object (even an empty one) is truthy, a missing property reads as
`undefined`. -/
def jsIndexData (d : Option Obj) (k : String) : Option Int :=
  match d with
  | none => none
  | some o => o.lookup k

/-- Embedding of `RowNode.setAggData`: collect the union of old and new
aggregate keys, replace `aggData`, then — only when the listener registry
exists — dispatch one `cellChanged` event per collected column id, carrying
the raw data value for that column (the column object itself is resolved by
the external column controller and is represented by its column id). -/
def setAggData (n : RowNode) (newAggData : Option Obj) : RowNode × List Event :=
  let colIds := getAllKeysInObjects [n.aggData, newAggData]
  let n' := { n with aggData := newAggData }
  if n'.eventService.isSome then
    (n', colIds.map (fun colId => Event.cellChanged colId (jsIndexData n'.data colId)))
  else (n', [])

/-- Embedding of `RowNode.addEventListener`: lazily create the listener
registry, then register the listener (listeners are identified by a number;
the registry itself — `EventService` — is an external collaborator treated
as a black-box subscription list, per the spec's event-bus contract). -/
def addEventListener (n : RowNode) (eventType : String) (listener : Nat) : RowNode :=
  let es := match n.eventService with
    | none => []
    | some l => l
  { n with eventService := some (es ++ [(eventType, listener)]) }

/-- Embedding of `RowNode.removeEventListener`: the source dereferences
`this.eventService` without a guard, so when the registry was never created
the call throws (`none`); otherwise the listener is removed. -/
def removeEventListener (n : RowNode) (eventType : String) (listener : Nat) :
    Option RowNode :=
  match n.eventService with
  | none => none
  | some l =>
    some { n with eventService := some (l.filter (fun p => !(p == (eventType, listener)))) }

end RowNode

/-- Mutable grid-wide state threaded through the selection algorithms: the
node store (nodes addressed by index), the trace of dispatched events and
collaborator calls, and the two ordered views supplied by the external row
model (`forEachNodeAfterFilterAndSort` and `getTopLevelNodes`). -/
structure GridState where
  nodes : List RowNode
  events : List Event := []
  traversal : List Nat := []
  topLevelNodes : List Nat := []
deriving DecidableEq, Repr

namespace GridState

/-- Append one dispatched event to the trace. -/
def emit (s : GridState) (e : Event) : GridState :=
  { s with events := s.events ++ [e] }

end GridState

/-- Embedding of `RowNode.selectThisNode`: no-op when the three-valued
`selected` field already strictly equals the new value; otherwise assign it,
dispatch the local `rowSelected` event when the listener registry exists, and
always dispatch the global `rowSelected` event. Returns whether the node
changed. -/
def selectThisNode (s : GridState) (i : Nat) (newValue : Option Bool) :
    GridState × Bool :=
  match s.nodes[i]? with
  | none => (s, false)
  | some n =>
    if n.selected = newValue then (s, false)
    else
      let s1 := { s with nodes := s.nodes.set i { n with selected := newValue } }
      let s2 := if n.eventService.isSome then s1.emit (Event.rowSelectedLocal i) else s1
      (s2.emit (Event.rowSelectedGlobal i), true)

/-- Embedding of `RowNode.isSelected`: a footer delegates to its sibling,
any other node returns its raw three-valued `selected` field. The result is
wrapped in an outer `Option`: `none` models a crash (footer without a
sibling, a dangling index) or exhausted fuel. -/
def isSelectedF : Nat → GridState → Nat → Option (Option Bool)
  | 0, _, _ => none
  | fuel+1, s, i =>
    match s.nodes[i]? with
    | none => none
    | some n =>
      if n.footer then
        match n.sibling with
        | some j => isSelectedF fuel s j
        | none => none
      else some n.selected

/-- The classification loop plus the decision ladder of
`RowNode.calculateSelectedFromChildren`, as a function of the children's
reported `isSelected()` values: mixed wins, then all-agreeing selected /
deselected, and `undefined` when the signal is absent. -/
def calcSelectedValue (childStates : List (Option Bool)) : Option Bool :=
  let atLeastOneSelected := childStates.any (fun c => c = some true)
  let atLeastOneDeSelected := childStates.any (fun c => c = some false)
  let atLeastOneMixed := childStates.any (fun c => c = none)
  if atLeastOneMixed then none
  else if atLeastOneSelected && !atLeastOneDeSelected then some true
  else if !atLeastOneSelected && atLeastOneDeSelected then some false
  else none

/-- Embedding of `RowNode.calculateSelectedFromChildren`: classify the
`childrenAfterGroup` list by each child's `isSelected()` (an absent children
list leaves all classification flags false) and apply the outcome via
`selectThisNode`. -/
def calculateSelectedFromChildren (fuel : Nat) (s : GridState) (i : Nat) :
    Option GridState := do
  let n ← s.nodes[i]?
  let childStates ←
    match n.childrenAfterGroup with
    | none => pure []
    | some cs => cs.mapM (isSelectedF fuel s)
  pure (selectThisNode s i (calcSelectedValue childStates)).1

/-- Embedding of `RowNode.calculateSelectedFromChildrenBubbleUp`: recompute
this node from its children, then recurse into the parent if there is one. -/
def calculateSelectedFromChildrenBubbleUp : Nat → GridState → Nat → Option GridState
  | 0, _, _ => none
  | fuel+1, s, i => do
    let s' ← calculateSelectedFromChildren fuel s i
    let n ← s'.nodes[i]?
    match n.parent with
    | some p => calculateSelectedFromChildrenBubbleUp fuel s' p
    | none => pure s'

/-- Embedding of `RowNode.depthFirstSearch` with a state-transforming
callback: visit all `childrenAfterGroup` subtrees left to right, then invoke
the callback on the node itself (post-order). -/
def depthFirstSearch : Nat → (GridState → Nat → Option GridState) → GridState → Nat →
    Option GridState
  | 0, _, _, _ => none
  | fuel+1, f, s, i => do
    let n ← s.nodes[i]?
    let s' ←
      match n.childrenAfterGroup with
      | none => pure s
      | some cs => cs.foldlM (fun acc c => depthFirstSearch fuel f acc c) s
    f s' i

/-- Embedding of `RowNode.calculatedSelectedForAllGroupNodes`: for every
top-level group node, recompute every group node of its subtree depth first,
then recompute the top-level node itself. -/
def calculatedSelectedForAllGroupNodes (fuel : Nat) (s : GridState) : Option GridState :=
  s.topLevelNodes.foldlM
    (fun st t => do
      let n ← st.nodes[t]?
      if n.group then do
        let st' ← depthFirstSearch fuel
          (fun s2 j => do
            let m ← s2.nodes[j]?
            if m.group then calculateSelectedFromChildren fuel s2 j else pure s2)
          st t
        calculateSelectedFromChildren fuel st' t
      else pure st)
    s

/-- The `while (parentNode)` loop of `RowNode.isParentOfNode`, walking a
parent pointer and comparing each ancestor against the candidate parent by
identity. -/
def parentChainContains : Nat → GridState → Option Nat → Option Nat → Option Bool
  | 0, _, _, _ => none
  | _fuel+1, _s, none, _pp => some false
  | fuel+1, s, some p, pp =>
    if (some p : Option Nat) = pp then some true
    else
      match s.nodes[p]? with
      | none => none
      | some pn => parentChainContains fuel s pn.parent pp

/-- Embedding of `RowNode.isParentOfNode`: true when the candidate
(`potentialParent`, possibly absent) occurs on this node's parent chain. -/
def isParentOfNode (fuel : Nat) (s : GridState) (i : Nat) (potentialParent : Option Nat) :
    Option Bool :=
  match s.nodes[i]? with
  | none => none
  | some n => parentChainContains fuel s n.parent potentialParent

/-- Loop state of the `forEachNodeAfterFilterAndSort` walk inside
`doRowRangeSelection`. -/
structure RangeWalk where
  firstRowHit : Bool
  lastRowHit : Bool
  lastRow : Option Nat
  updatedCount : Nat
  st : GridState
deriving DecidableEq, Repr

/-- One iteration of the range-selection walk, mirroring the body of the
`forEachNodeAfterFilterAndSort` callback in `RowNode.doRowRangeSelection`:
remember whether we were between the endpoints, open the range on the first
endpoint, set every non-skipped node to "in range or child of the closing
endpoint", and close the range after the second endpoint. -/
def rangeStep (fuel : Nat) (cfg : Config) (lastSel : Option Nat) (self : Nat)
    (w : RangeWalk) (j : Nat) : Option RangeWalk := do
  let lookingForLastRow := w.firstRowHit && !w.lastRowHit
  let firstRowHit :=
    if !w.firstRowHit && (lastSel = some j || j = self) then true else w.firstRowHit
  let n ← w.st.nodes[j]?
  let skipThisGroupNode := n.group && cfg.groupSelectsChildren
  let (st', cnt') ←
    if !skipThisGroupNode then do
      let inRange := firstRowHit && !w.lastRowHit
      let childOfLastRow ← isParentOfNode fuel w.st j w.lastRow
      let (st2, changed) := selectThisNode w.st j (some (inRange || childOfLastRow))
      pure (st2, w.updatedCount + (if changed then 1 else 0))
    else pure (w.st, w.updatedCount)
  let (lastRowHit, lastRow) :=
    if lookingForLastRow && (lastSel = some j || j = self) then
      (true, if lastSel = some j then lastSel else some self)
    else (w.lastRowHit, w.lastRow)
  pure { firstRowHit := firstRowHit, lastRowHit := lastRowHit, lastRow := lastRow,
         updatedCount := cnt', st := st' }

/-- Embedding of `RowNode.doRowRangeSelection`: walk the full
after-filter-and-sort traversal once (starting "inside the range" when there
is no anchor), then — under group-selects-children — recompute every group
node tree-wide, and finally dispatch one global `selectionChanged` event.
The selection registry's anchor (`lastSel`) is read once and never written
on this path. -/
def doRowRangeSelection (fuel : Nat) (cfg : Config) (lastSel : Option Nat)
    (s : GridState) (self : Nat) : Option (GridState × Nat) := do
  let init : RangeWalk :=
    { firstRowHit := lastSel.isNone, lastRowHit := false, lastRow := none,
      updatedCount := 0, st := s }
  let w ← s.traversal.foldlM (rangeStep fuel cfg lastSel self) init
  let st' ←
    if cfg.groupSelectsChildren then calculatedSelectedForAllGroupNodes fuel w.st
    else pure w.st
  pure (st'.emit Event.selectionChanged, w.updatedCount)

/-- Modelled from the spec: `SelectionController.clearOtherNodes`
(`selectionController.ts` is not among the given sources) — "ask the
Selection Registry to clear every other selected node first, counting those
clears". Every node other than the kept one whose `isSelected()` is true is
deselected through the same `selectThisNode` primitive. -/
def clearOtherNodes (s : GridState) (keep : Nat) : GridState × Nat :=
  (List.range s.nodes.length).foldl
    (fun (acc : GridState × Nat) j =>
      if j = keep then acc
      else
        match acc.1.nodes[j]? with
        | some m =>
          if m.selected = some true then
            let (s', changed) := selectThisNode acc.1 j (some false)
            (s', acc.2 + (if changed then 1 else 0))
          else acc
        | none => acc)
    (s, 0)

/-- Embedding of `RowNode.selectChildNodes`: iterate the (filtered or
unfiltered) children, invoking `setSelectedParams` on each with
`clearSelection: false` and `tailingNodeInSequence: true`, accumulating the
counts. The recursive call back into `setSelectedParams` is abstracted into
the `setSel` parameter so that the recursion of `setSelectedParams` stays
structural in its fuel (the caller passes the one-step-smaller fuel).
When the children list is missing the source returns `undefined` (which the
caller would coerce to `NaN`); none of the verified claims reaches that
branch, and it is rendered as a zero count. -/
def selectChildNodes
    (setSel : GridState → Option Nat → Nat → SetSelectedParams →
      Option (GridState × Option Nat × Nat))
    (s : GridState) (lastSel : Option Nat) (i : Nat) (newValue : Bool)
    (groupSelectsFiltered : Bool) : Option (GridState × Option Nat × Nat) :=
  match s.nodes[i]? with
  | none => none
  | some n =>
    let children :=
      if groupSelectsFiltered then n.childrenAfterFilter else n.childrenAfterGroup
    match children with
    | none => some (s, lastSel, 0)
    | some cs =>
      cs.foldlM
        (fun (acc : GridState × Option Nat × Nat) c => do
          let (s', ls', cnt) ← setSel acc.1 acc.2.1 c
            { newValue := some newValue, clearSelection := some false,
              tailingNodeInSequence := some true, rangeSelect := none,
              groupSelectsFiltered := none }
          pure (s', ls', acc.2.2 + cnt))
        (s, lastSel, 0)

/-- Embedding of `RowNode.setSelectedParams`, the single selection entry
point. In source order: reject nodes without an id or floating nodes (the
`console.warn` diagnostic mutates no grid state and is not modelled),
delegate footers to their sibling, divert to the range algorithm when
requested on the normal row model with multi-select and a different anchor,
otherwise set this node (unless derived from filtered children), propagate
to children via `selectChildNodes` under group-selects-children, and — on
the original call only — clear other nodes, recompute affected groups,
dispatch one global `selectionChanged` event and record the anchor. Returns
the updated grid state, the selection registry's anchor, and the
updated-node count. -/
def setSelectedParams : Nat → Config → Option Nat → GridState → Nat →
    SetSelectedParams → Option (GridState × Option Nat × Nat)
  | 0, _, _, _, _, _ => none
  | fuel+1, cfg, lastSel, s, i, params =>
    match s.nodes[i]? with
    | none => none
    | some n =>
      let groupSelectsChildren := cfg.groupSelectsChildren
      let newValue := params.newValue = some true
      let clearSelection := params.clearSelection = some true
      let tailingNodeInSequence := params.tailingNodeInSequence = some true
      let rangeSelect := params.rangeSelect = some true
      let groupSelectsFiltered :=
        groupSelectsChildren && (params.groupSelectsFiltered = some true)
      if n.id = none then some (s, lastSel, 0)
      else if jsTruthy n.floating then some (s, lastSel, 0)
      else if n.footer then
        match n.sibling with
        | some sib => setSelectedParams fuel cfg lastSel s sib params
        | none => none
      else if rangeSelect &&
          (cfg.rowModelNormal && !(lastSel = some i : Bool) && cfg.rowSelectionMulti) then
        (doRowRangeSelection fuel cfg lastSel s i).map (fun r => (r.1, lastSel, r.2))
      else
        let skipThisNode := groupSelectsFiltered && n.group
        let (s1, changed) :=
          if !skipThisNode then selectThisNode s i (some newValue) else (s, false)
        let c1 : Nat := if changed then 1 else 0
        do
          let (s2, ls2, c2) ←
            if groupSelectsChildren && n.group then
              selectChildNodes (fun s2 ls2 c p => setSelectedParams fuel cfg ls2 s2 c p)
                s1 lastSel i newValue groupSelectsFiltered
            else pure (s1, lastSel, (0 : Nat))
          let updatedCount := c1 + c2
          if !tailingNodeInSequence then do
            let (s3, c3) :=
              if newValue && (clearSelection || !cfg.rowSelectionMulti) then
                clearOtherNodes s2 i
              else (s2, 0)
            let updatedCount2 := updatedCount + c3
            let s4 ←
              if updatedCount2 > 0 then do
                let sg ←
                  if groupSelectsFiltered then
                    calculatedSelectedForAllGroupNodes fuel s3
                  else if groupSelectsChildren && n.parent.isSome then
                    match n.parent with
                    | some p => calculateSelectedFromChildrenBubbleUp fuel s3 p
                    | none => pure s3
                  else pure s3
                pure (sg.emit Event.selectionChanged)
              else pure s3
            let lastSel2 := if newValue then some i else ls2
            pure (s4, lastSel2, updatedCount2)
          else pure (s2, ls2, updatedCount)

/-- Embedding of `RowNode.setSelected`, sugar over `setSelectedParams` with
`rangeSelect: false` and no `groupSelectsFiltered` member. -/
def setSelected (fuel : Nat) (cfg : Config) (lastSel : Option Nat) (s : GridState)
    (i : Nat) (newValue : Option Bool) (clearSelection : Option Bool)
    (tailing : Option Bool) : Option (GridState × Option Nat × Nat) :=
  setSelectedParams fuel cfg lastSel s i
    { newValue := newValue, clearSelection := clearSelection,
      tailingNodeInSequence := tailing, rangeSelect := some false,
      groupSelectsFiltered := none }

/-! Concrete grid states and nodes used by the witnesses and
counterexamples below. -/

/-- Concrete node with a listener registry and some data, for the
data-mutator witnesses. -/
def nC10 : RowNode := { newRowNode with eventService := some [], data := some [(("a"), 1)] }

/-- Concrete node showing that `setRowIndex` has no equality guard. -/
def nodeC4 : RowNode := { newRowNode with rowIndex := JsVal.num 3, eventService := some [] }

/-- Concrete node used by the witness of the amended setter claim. -/
def nodeC4w : RowNode := { newRowNode with rowTop := JsVal.num 7, eventService := some [] }

/-- Concrete node used by the witness of the aggregate-data claim: it has a
listener registry, aggregate data with keys a and b, and raw data for a. -/
def nC7 : RowNode :=
  { newRowNode with
    eventService := some []
    aggData := some [(("a"), 1), (("b"), 2)]
    data := some [(("a"), 10)] }

/-- Concrete node used by the witness of the daemon-snapshot claim. -/
def nC8 : RowNode :=
  { newRowNode with
    id := some ("5")
    data := some [(("x"), 1)]
    selected := some true
    eventService := some [] }

/-- Concrete floating node (it has an id, so only the floating check can
reject it). -/
def nFlC2 : RowNode := { newRowNode with id := some ("f"), floating := some ("top") }

/-- One-node grid state around `nFlC2`. -/
def sC2 : GridState := { nodes := [nFlC2] }

/-- Footer node with a sibling link but no id. -/
def footC3 : RowNode := { newRowNode with footer := true, sibling := some 1 }

/-- Selectable sibling of the footers above. -/
def sibC3 : RowNode := { newRowNode with id := some ("s") }

/-- Grid state holding the id-less footer and its sibling. -/
def sC3 : GridState := { nodes := [footC3, sibC3] }

/-- Parameter bundle requesting a plain select-true. -/
def pC3 : SetSelectedParams := { newValue := some true }

/-- Multi-select configuration used by the selection witnesses. -/
def cfgC3 : Config := { rowSelectionMulti := true }

/-- Footer node with a sibling link and an id. -/
def footC3w : RowNode := { newRowNode with footer := true, sibling := some 1, id := some ("f") }

/-- Grid state holding the footer with id and its sibling. -/
def sC3w : GridState := { nodes := [footC3w, sibC3] }

/-- Group node with two children, for the aggregation witness. -/
def gC1 : RowNode :=
  { newRowNode with group := true, childrenAfterGroup := some [1, 2], id := some ("g") }

/-- Grid state with a group over one selected and one deselected child. -/
def sC1 : GridState :=
  { nodes := [gC1,
      { newRowNode with selected := some true, id := some ("1") },
      { newRowNode with selected := some false, id := some ("2") }] }

/-- Plain selectable node for the idempotence witness. -/
def nC5 : RowNode := { newRowNode with id := some ("n") }

/-- One-node grid state around `nC5`. -/
def sC5 : GridState := { nodes := [nC5] }

/-- Multi-select configuration for the idempotence witness. -/
def cfgC5 : Config := { rowSelectionMulti := true }

/-- Flat three-node grid state with its traversal order, for the
range-selection witness. -/
def sC6 : GridState :=
  { nodes := [{ newRowNode with id := some ("0") },
      { newRowNode with id := some ("1") },
      { newRowNode with id := some ("2") }],
    traversal := [0, 1, 2] }

/-- Normal row model with multi-select, for the range-selection witness. -/
def cfgC6 : Config := { rowSelectionMulti := true, rowModelNormal := true }

/-- Parameter bundle requesting a range selection. -/
def pC6 : SetSelectedParams := { newValue := some true, rangeSelect := some true }

section KeyUnionLemmas

/-- Key collection used by `getAllKeysInObjects` keeps membership: a key is in
the fold exactly when it is in the accumulator or in the scanned list. -/
theorem mem_foldl_insKey (l : List String) (acc : List String) (k : String) :
    (k ∈ l.foldl (fun acc2 k2 => if k2 ∈ acc2 then acc2 else acc2 ++ [k2]) acc) ↔
      k ∈ acc ∨ k ∈ l := by
  induction l generalizing acc with
  | nil => simp
  | cons x xs ih =>
    simp only [List.foldl_cons]
    by_cases hx : x ∈ acc
    · rw [if_pos hx, ih]
      constructor
      · rintro (h | h)
        · exact Or.inl h
        · exact Or.inr (List.mem_cons_of_mem _ h)
      · rintro (h | h)
        · exact Or.inl h
        · rcases List.mem_cons.mp h with h | h
          · exact Or.inl (h ▸ hx)
          · exact Or.inr h
    · rw [if_neg hx, ih]
      simp only [List.mem_append, List.mem_singleton, List.mem_cons]
      tauto

/-- Key collection used by `getAllKeysInObjects` preserves distinctness. -/
theorem nodup_foldl_insKey (l : List String) (acc : List String) (h : acc.Nodup) :
    (l.foldl (fun acc2 k2 => if k2 ∈ acc2 then acc2 else acc2 ++ [k2]) acc).Nodup := by
  induction l generalizing acc with
  | nil => exact h
  | cons x xs ih =>
    simp only [List.foldl_cons]
    by_cases hx : x ∈ acc
    · rw [if_pos hx]; exact ih _ h
    · rw [if_neg hx]
      refine ih _ ?_
      simp [List.nodup_append, h, hx]

/-- Characterisation of the modelled `getAllKeysInObjects` on two objects:
it is exactly the union of the two key sets. -/
theorem getAllKeysInObjects_mem (o1 o2 : Option Obj) (k : String) :
    k ∈ RowNode.getAllKeysInObjects [o1, o2] ↔
      k ∈ (o1.getD []).map Prod.fst ∨ k ∈ (o2.getD []).map Prod.fst := by
  simp only [RowNode.getAllKeysInObjects, List.foldl_cons, List.foldl_nil]
  rw [mem_foldl_insKey, mem_foldl_insKey]
  simp

/-- The modelled `getAllKeysInObjects` never repeats a key. -/
theorem getAllKeysInObjects_nodup (o1 o2 : Option Obj) :
    (RowNode.getAllKeysInObjects [o1, o2]).Nodup := by
  simp only [RowNode.getAllKeysInObjects, List.foldl_cons, List.foldl_nil]
  exact nodup_foldl_insKey _ _ (nodup_foldl_insKey _ _ List.nodup_nil)

end KeyUnionLemmas

/-- Helper: `selectThisNode` is a strict no-op when the node already holds
the requested three-valued selection. -/
theorem selectThisNode_noop (s : GridState) (i : Nat) (n : RowNode) (v : Option Bool)
    (hn : s.nodes[i]? = some n) (heq : n.selected = v) :
    selectThisNode s i v = (s, false) := by
  rw [selectThisNode, hn]
  simp [heq]

/-- Helper: closed form of `selectThisNode` when the value changes — the
node's `selected` field is set and the local (registry permitting) and
global `rowSelected` events are appended. -/
theorem selectThisNode_eq (s : GridState) (i : Nat) (n : RowNode) (v : Option Bool)
    (hn : s.nodes[i]? = some n) (hne : ¬n.selected = v) :
    selectThisNode s i v =
      ({ s with
          nodes := s.nodes.set i { n with selected := v },
          events := (s.events ++
            (if n.eventService.isSome then [Event.rowSelectedLocal i] else [])) ++
            [Event.rowSelectedGlobal i] },
        true) := by
  rw [selectThisNode, hn]
  by_cases hc : n.eventService.isSome <;> simp [hne, hc, GridState.emit]

/-- Helper: after `selectThisNode`, the node holds exactly the requested
three-valued selection. -/
theorem selectThisNode_selected (s : GridState) (i : Nat) (n : RowNode) (v : Option Bool)
    (h : s.nodes[i]? = some n) :
    (((selectThisNode s i v).1).nodes[i]?).map RowNode.selected = some v := by
  have hl : i < s.nodes.length := by
    rcases List.getElem?_eq_some.mp h with ⟨hlt, _⟩
    exact hlt
  rw [selectThisNode, h]
  by_cases hv : n.selected = v
  · simp [hv, h]
  · by_cases hc : n.eventService.isSome <;>
      simp [hv, hc, GridState.emit, List.getElem?_set_eq_of_lt _ hl]

/-- Helper: the classification `any` scans of `calculateSelectedFromChildren`
decide membership. -/
theorem any_eq_mem (a : Option Bool) (vs : List (Option Bool)) :
    vs.any (fun c => c = a) = decide (a ∈ vs) := by
  induction vs with
  | nil => simp
  | cons x xs ih =>
    simp only [List.any_cons, ih, List.mem_cons]
    by_cases hx : x = a
    · subst hx; simp
    · have hx2 : ¬a = x := fun h => hx h.symm
      simp [hx, hx2]

/-- Helper: the decision ladder of `calculateSelectedFromChildren`, phrased
through list membership of the children's reported states. -/
theorem calcSelectedValue_spec (vs : List (Option Bool)) :
    calcSelectedValue vs =
      if (none : Option Bool) ∈ vs then none
      else if some true ∈ vs ∧ some false ∉ vs then some true
      else if some false ∈ vs ∧ some true ∉ vs then some false
      else none := by
  simp only [calcSelectedValue, any_eq_mem]
  by_cases hm : (none : Option Bool) ∈ vs <;>
  by_cases hs : (some true) ∈ vs <;>
  by_cases hd : (some false) ∈ vs <;>
  simp [hm, hs, hd]

/-- Helper: one step of the range walk depends on the anchor and the clicked
node only through the two-element set they form: for distinct nodes the
walk step is unchanged when the two roles are swapped. -/
theorem rangeStep_symm (fuel : Nat) (cfg : Config) (a b : Nat) (hab : a ≠ b)
    (w : RangeWalk) (j : Nat) :
    rangeStep fuel cfg (some a) b w j = rangeStep fuel cfg (some b) a w j := by
  by_cases hja : j = a
  · subst hja
    have hjb : j ≠ b := hab
    simp [rangeStep, hjb, Ne.symm hjb]
  · by_cases hjb : j = b
    · subst hjb
      have hja2 : j ≠ a := fun h => hja h
      simp [rangeStep, hja2, Ne.symm hja2]
    · simp [rangeStep, hja, hjb, Ne.symm hja, Ne.symm hjb]

/-- Helper: the whole range-selection pass is invariant under swapping the
anchor and the clicked node, including the updated count, the final node
store and the event trace. -/
theorem doRowRangeSelection_symm (fuel : Nat) (cfg : Config) (s : GridState)
    (a b : Nat) (hab : a ≠ b) :
    doRowRangeSelection fuel cfg (some a) s b = doRowRangeSelection fuel cfg (some b) s a := by
  have hstep : rangeStep fuel cfg (some a) b = rangeStep fuel cfg (some b) a := by
    funext w j
    exact rangeStep_symm fuel cfg a b hab w j
  simp [doRowRangeSelection, hstep]

/-- C1 (confirmed): for every group node, `calculateSelectedFromChildren`
sets the node's selection, via `selectThisNode` over the `childrenAfterGroup`
list, to undefined when at least one direct child reports mixed through
`isSelected()`; to true when at least one child reports selected and none
reports deselected; to false when at least one reports deselected and none
reports selected; and to undefined otherwise, in particular when the node
has no children (then the reported list is empty). -/
theorem calculateSelectedFromChildren_spec
    (fuel : Nat) (s : GridState) (i : Nat) (n : RowNode) (vs : List (Option Bool))
    (hn : s.nodes[i]? = some n) (_hg : n.group = true)
    (hvs : (n.childrenAfterGroup.getD []).mapM (isSelectedF fuel s) = some vs) :
    ∃ s', calculateSelectedFromChildren fuel s i = some s' ∧
      (s'.nodes[i]?).map RowNode.selected = some (
        if (none : Option Bool) ∈ vs then none
        else if some true ∈ vs ∧ some false ∉ vs then some true
        else if some false ∈ vs ∧ some true ∉ vs then some false
        else none) := by
  have heq : calculateSelectedFromChildren fuel s i =
      some ((selectThisNode s i (calcSelectedValue vs)).1) := by
    unfold calculateSelectedFromChildren
    cases hc : n.childrenAfterGroup with
    | none =>
      rw [hc] at hvs
      simp only [Option.getD_none, List.mapM_nil] at hvs
      have hvs2 : vs = [] := by
        cases hvs
        rfl
      simp [hn, hc, hvs2, Option.bind]
    | some cs =>
      rw [hc] at hvs
      simp only [Option.getD_some] at hvs
      have hvs2 : List.mapM.loop (isSelectedF fuel s) cs [] = some vs := hvs
      simp [hn, hc, hvs2, Option.bind]
  refine ⟨_, heq, ?_⟩
  rw [← calcSelectedValue_spec]
  exact selectThisNode_selected s i n (calcSelectedValue vs) hn

/-- Witness for C1 on a group over one selected and one deselected child:
the recomputed group selection is undefined (mixed). -/
theorem calculateSelectedFromChildren_spec_witness :
    sC1.nodes[0]? = some gC1 ∧ gC1.group = true ∧
    (gC1.childrenAfterGroup.getD []).mapM (isSelectedF 3 sC1) =
      some [some true, some false] ∧
    (∃ s', calculateSelectedFromChildren 3 sC1 0 = some s' ∧
      (s'.nodes[0]?).map RowNode.selected = some none) := by
  refine ⟨rfl, rfl, by decide, ?_⟩
  have h := calculateSelectedFromChildren_spec 3 sC1 0 gC1 [some true, some false]
    rfl rfl (by decide)
  simpa using h

/-- C2 (confirmed): `setSelectedParams` on a node whose id is undefined, or
whose `floating` field is set (truthy), returns updated-count 0 and leaves
the whole grid state — every node, the event trace and the selection
registry's anchor — unchanged; the only effect in the source is a console
diagnostic, which touches no grid state. -/
theorem setSelectedParams_reject_spec (fuel : Nat) (cfg : Config) (lastSel : Option Nat)
    (s : GridState) (i : Nat) (n : RowNode) (params : SetSelectedParams)
    (hn : s.nodes[i]? = some n) (h : n.id = none ∨ jsTruthy n.floating = true) :
    setSelectedParams (fuel+1) cfg lastSel s i params = some (s, lastSel, 0) := by
  rw [setSelectedParams, hn]
  rcases h with h | h
  · simp [h]
  · by_cases hid : n.id = none
    · simp [hid]
    · simp [hid, h]

/-- Witness for C2 on a concrete floating node. -/
theorem setSelectedParams_reject_spec_witness :
    sC2.nodes[0]? = some nFlC2 ∧ jsTruthy nFlC2.floating = true ∧
    setSelectedParams 1 ({} : Config) none sC2 0 {} = some (sC2, none, 0) :=
  ⟨rfl, by decide,
    setSelectedParams_reject_spec 0 {} none sC2 0 nFlC2 {} rfl (Or.inr (by decide))⟩

/-- C3 (corrected) counterexample: the claim says `setSelectedParams` on a
footer always delegates to the sibling and returns the sibling's count, but
the id/floating rejection checks run before the footer check. On a footer
without an id, `setSelectedParams` returns 0 and touches nothing — the
sibling stays deselected — although the sibling's own call would return
count 1. -/
theorem footerDelegation_cex :
    footC3.footer = true ∧ footC3.sibling = some 1 ∧ footC3.id = none ∧
    setSelectedParams 5 cfgC3 none sC3 0 pC3 = some (sC3, none, 0) ∧
    (setSelectedParams 5 cfgC3 none sC3 1 pC3).map (fun r => r.2.2) = some 1 ∧
    (setSelectedParams 5 cfgC3 none sC3 0 pC3).map
      (fun r => (r.1.nodes[1]?).map RowNode.selected) = some (some (some false)) :=
  ⟨rfl, rfl, rfl, by decide, by decide, by decide⟩

/-- C3 (corrected) amended claim: a footer with its sibling link set never
stores selection truth of its own — `isSelected()` always delegates to the
sibling, in every state, hence also after any `setSelectedParams` call — and
`setSelectedParams` on a footer with a defined id that is not floating
delegates entirely to the sibling and returns the sibling's full result. -/
theorem footerDelegation_amended (fuel : Nat) (cfg : Config) (lastSel : Option Nat)
    (s : GridState) (i j : Nat) (n : RowNode) (params : SetSelectedParams)
    (hn : s.nodes[i]? = some n) (hfoot : n.footer = true) (hsib : n.sibling = some j) :
    isSelectedF (fuel+1) s i = isSelectedF fuel s j ∧
    (¬n.id = none → jsTruthy n.floating = false →
      setSelectedParams (fuel+1) cfg lastSel s i params =
        setSelectedParams fuel cfg lastSel s j params) := by
  constructor
  · rw [isSelectedF, hn]
    simp [hfoot, hsib]
  · intro hid hfl
    rw [setSelectedParams, hn]
    simp [hid, hfl, hfoot, hsib]

/-- Witness for the amended C3 claim on a footer with an id. -/
theorem footerDelegation_amended_witness :
    sC3w.nodes[0]? = some footC3w ∧ footC3w.footer = true ∧ footC3w.sibling = some 1 ∧
    isSelectedF 3 sC3w 0 = isSelectedF 2 sC3w 1 ∧
    setSelectedParams 3 cfgC3 none sC3w 0 pC3 = setSelectedParams 2 cfgC3 none sC3w 1 pC3 := by
  refine ⟨rfl, rfl, rfl, ?_, ?_⟩
  · exact (footerDelegation_amended 2 cfgC3 none sC3w 0 1 footC3w pC3 rfl rfl rfl).1
  · exact (footerDelegation_amended 2 cfgC3 none sC3w 0 1 footC3w pC3 rfl rfl rfl).2
      (by decide) (by decide)

/-- C5 (confirmed): on a node with a defined id, not floating, not a footer,
initially deselected, with group-selects-children off and multi-select on,
`setSelected(true)` returns updated-count 1 (recording the node as anchor),
and a second identical call on the resulting state returns updated-count 0
and changes nothing further. -/
theorem setSelected_idempotent_counts
    (fuel : Nat) (cfg : Config) (lastSel : Option Nat) (s : GridState) (i : Nat) (n : RowNode)
    (hn : s.nodes[i]? = some n) (hid : ¬n.id = none) (hfl : jsTruthy n.floating = false)
    (hft : n.footer = false) (hsel : n.selected = some false)
    (hgsc : cfg.groupSelectsChildren = false) (hmulti : cfg.rowSelectionMulti = true) :
    ∃ s1, setSelected (fuel+1) cfg lastSel s i (some true) (some false) (some false) =
        some (s1, some i, 1) ∧
      setSelected (fuel+1) cfg (some i) s1 i (some true) (some false) (some false) =
        some (s1, some i, 0) := by
  have hl : i < s.nodes.length := by
    rcases List.getElem?_eq_some.mp hn with ⟨hlt, _⟩
    exact hlt
  have hne : ¬n.selected = some true := by
    rw [hsel]; simp
  refine ⟨((selectThisNode s i (some true)).1).emit Event.selectionChanged, ?_, ?_⟩
  · rw [setSelected, setSelectedParams, hn]
    simp [hid, hfl, hft, hgsc, hmulti, hne,
      selectThisNode_eq s i n (some true) hn hne, GridState.emit, Option.bind]
  · have hn1 : (((selectThisNode s i (some true)).1).emit Event.selectionChanged).nodes[i]? =
        some { n with selected := some true } := by
      rw [selectThisNode_eq s i n (some true) hn hne]
      simp [GridState.emit, List.getElem?_set_eq_of_lt _ hl]
    rw [setSelected, setSelectedParams, hn1]
    simp [hid, hfl, hft, hgsc, hmulti, Option.bind,
      selectThisNode_noop _ i _ (some true) hn1 rfl]

/-- Witness for C5 on a concrete one-node state. -/
theorem setSelected_idempotent_counts_witness :
    sC5.nodes[0]? = some nC5 ∧ nC5.selected = some false ∧
    (∃ s1, setSelected 1 cfgC5 none sC5 0 (some true) (some false) (some false) =
        some (s1, some 0, 1) ∧
      setSelected 1 cfgC5 (some 0) s1 0 (some true) (some false) (some false) =
        some (s1, some 0, 0)) :=
  ⟨rfl, rfl, setSelected_idempotent_counts 0 cfgC5 none sC5 0 nC5 rfl (by decide)
    (by decide) rfl rfl rfl rfl⟩

/-- C6 (confirmed): for distinct selectable nodes A and B present in the
same after-filter-and-sort traversal order, a range selection with A as the
anchor (last selected node) and B as the clicked node produces exactly the
same grid state — in particular the same set of nodes with selected true —
and the same updated count as the range selection with the roles swapped;
only the anchor bookkeeping, which the range path leaves at its input
value, differs between the two calls. -/
theorem rangeSelection_symmetric (fuel : Nat) (cfg : Config) (s : GridState)
    (a b : Nat) (na nb : RowNode) (params : SetSelectedParams)
    (hab : a ≠ b) (_hta : a ∈ s.traversal) (_htb : b ∈ s.traversal)
    (hna : s.nodes[a]? = some na) (hnb : s.nodes[b]? = some nb)
    (hida : ¬na.id = none) (hidb : ¬nb.id = none)
    (hfla : jsTruthy na.floating = false) (hflb : jsTruthy nb.floating = false)
    (hfta : na.footer = false) (hftb : nb.footer = false)
    (hrange : params.rangeSelect = some true)
    (hnormal : cfg.rowModelNormal = true) (hmulti : cfg.rowSelectionMulti = true) :
    (setSelectedParams (fuel+1) cfg (some a) s b params).map (fun r => (r.1, r.2.2)) =
    (setSelectedParams (fuel+1) cfg (some b) s a params).map (fun r => (r.1, r.2.2)) := by
  rw [setSelectedParams, hnb, setSelectedParams, hna]
  have hba : ¬((some a : Option Nat) = some b) := by simpa using hab
  have hab2 : ¬((some b : Option Nat) = some a) := by simpa using Ne.symm hab
  simp [hida, hidb, hfla, hflb, hfta, hftb, hrange, hnormal, hmulti, hba, hab2,
    doRowRangeSelection_symm fuel cfg s a b hab]
  congr 1

/-- Witness for C6 on a flat three-node traversal, anchored at node 0 and
clicked at node 2 and vice versa. -/
theorem rangeSelection_symmetric_witness :
    (0 : Nat) ≠ 2 ∧ 0 ∈ sC6.traversal ∧ 2 ∈ sC6.traversal ∧
    (setSelectedParams 4 cfgC6 (some 0) sC6 2 pC6).map (fun r => (r.1, r.2.2)) =
    (setSelectedParams 4 cfgC6 (some 2) sC6 0 pC6).map (fun r => (r.1, r.2.2)) := by
  refine ⟨by decide, by decide, by decide, ?_⟩
  exact rangeSelection_symmetric 3 cfgC6 sC6 0 2 _ _ pC6 (by decide) (by decide) (by decide)
    rfl rfl (by decide) (by decide) rfl rfl rfl rfl rfl rfl rfl

/-- C4 (corrected) counterexample: calling `setRowIndex` with a value
strictly equal to the current `rowIndex` still fires `rowIndexChanged` — the
source of `setRowIndex` has no equality guard, contradicting the claim that
`setRowHeight` alone skips the guard. -/
theorem setRowIndex_equalValue_fires_cex :
    nodeC4.rowIndex = JsVal.num 3 ∧
    (RowNode.setRowIndex nodeC4 (JsVal.num 3)).2 = [Event.rowIndexChanged] :=
  ⟨rfl, rfl⟩

/-- C4 (corrected) amended claim: `setRowTop`, `setFirstChild`,
`setLastChild`, `setChildIndex`, `setAllChildrenCount`, `setUiLevel` and
`setExpanded` are no-ops (no field change, no event) when the new value
strictly equals the current one, while `setRowIndex` and `setRowHeight` both
always assign the field and fire their event (when a listener registry
exists) without an equality check. -/
theorem setters_equality_guard_amended (n : RowNode) (v : JsVal) :
    (n.rowTop = v → RowNode.setRowTop n v = (n, [])) ∧
    (n.firstChild = v → RowNode.setFirstChild n v = (n, [])) ∧
    (n.lastChild = v → RowNode.setLastChild n v = (n, [])) ∧
    (n.childIndex = v → RowNode.setChildIndex n v = (n, [])) ∧
    (n.allChildrenCount = v → RowNode.setAllChildrenCount n v = (n, [])) ∧
    (n.uiLevel = v → RowNode.setUiLevel n v = (n, [])) ∧
    (n.expanded = v → RowNode.setExpanded n v = (n, [])) ∧
    RowNode.setRowIndex n v = ({ n with rowIndex := v },
      if n.eventService.isSome then [Event.rowIndexChanged] else []) ∧
    RowNode.setRowHeight n v = ({ n with rowHeight := v },
      if n.eventService.isSome then [Event.heightChanged] else []) := by
  refine ⟨?_, ?_, ?_, ?_, ?_, ?_, ?_, rfl, rfl⟩ <;> intro h <;>
    simp [RowNode.setRowTop, RowNode.setFirstChild, RowNode.setLastChild,
      RowNode.setChildIndex, RowNode.setAllChildrenCount, RowNode.setUiLevel,
      RowNode.setExpanded, h]

/-- Witness for the amended C4 claim: an equal-valued `setRowTop` is a
no-op, while an equal-valued `setRowIndex` still fires. -/
theorem setters_equality_guard_amended_witness :
    nodeC4w.rowTop = JsVal.num 7 ∧
    RowNode.setRowTop nodeC4w (JsVal.num 7) = (nodeC4w, []) ∧
    (RowNode.setRowIndex nodeC4w (JsVal.num 7)).2 = [Event.rowIndexChanged] := by
  refine ⟨rfl, (setters_equality_guard_amended nodeC4w (JsVal.num 7)).1 rfl, ?_⟩
  have h := (setters_equality_guard_amended nodeC4w (JsVal.num 7)).2.2.2.2.2.2.2.1
  simpa using congrArg Prod.snd h

/-- C7 (confirmed): `setAggData` replaces the aggregate data and, exactly
when the listener registry exists, fires one `cellChanged` event per column
id in the union of the old and the new aggregate key sets (each key exactly
once), every event carrying the raw data value of that column rather than
the aggregate value. -/
theorem setAggData_spec (n : RowNode) (newAggData : Option Obj) :
    (RowNode.setAggData n newAggData).1 = { n with aggData := newAggData } ∧
    (n.eventService.isSome = true →
      (RowNode.setAggData n newAggData).2 =
        (RowNode.getAllKeysInObjects [n.aggData, newAggData]).map
          (fun colId => Event.cellChanged colId (RowNode.jsIndexData n.data colId))) ∧
    (n.eventService = none → (RowNode.setAggData n newAggData).2 = []) ∧
    (RowNode.getAllKeysInObjects [n.aggData, newAggData]).Nodup ∧
    (∀ c, c ∈ RowNode.getAllKeysInObjects [n.aggData, newAggData] ↔
      c ∈ (n.aggData.getD []).map Prod.fst ∨ c ∈ (newAggData.getD []).map Prod.fst) := by
  refine ⟨?_, ?_, ?_, getAllKeysInObjects_nodup _ _, fun c => getAllKeysInObjects_mem _ _ c⟩
  · by_cases h : n.eventService.isSome <;> simp [RowNode.setAggData, h]
  · intro h; simp [RowNode.setAggData, h]
  · intro h; simp [RowNode.setAggData, h]

/-- Witness for C7, realising the spec scenario: replacing aggregate data
a,b by a alone fires exactly two cell-changed events, for a (raw value 10)
and for the removed b (raw value undefined). -/
theorem setAggData_spec_witness :
    nC7.eventService.isSome = true ∧
    (RowNode.setAggData nC7 (some [(("a"), 1)])).2 =
      [Event.cellChanged ("a") (some 10), Event.cellChanged ("b") none] := by
  refine ⟨rfl, ?_⟩
  have h := (setAggData_spec nC7 (some [(("a"), 1)])).2.1 rfl
  exact h.trans (by decide)

/-- C8 (confirmed): on a node that already has an id, with no configured
row-id resolver, `setDataAndId` first snapshots a daemon copying id, data,
selected and level with `daemon = true`, assigns the new data, sets the
supplied id verbatim, passes the live node and the daemon to the selection
registry's `syncInRowNode`, and then dispatches the local `dataChanged`
event (when a listener registry exists). -/
theorem setDataAndId_daemon_spec (cfg : Config) (n : RowNode) (d : Option Obj)
    (newId : String) (oldId : String)
    (hresolver : cfg.getRowNodeId = none) (hid : n.id = some oldId) :
    (RowNode.setDataAndId cfg n d (some newId)).1 = { n with data := d, id := some newId } ∧
    (RowNode.setDataAndId cfg n d (some newId)).2.head? =
      some (Event.syncInRowNode { n with data := d, id := some newId }
        (some { newRowNode with
                id := some oldId, data := n.data, daemon := true,
                selected := n.selected, level := n.level })) ∧
    (n.eventService.isSome = true →
      (RowNode.setDataAndId cfg n d (some newId)).2 =
        [Event.syncInRowNode { n with data := d, id := some newId }
          (some { newRowNode with
                  id := some oldId, data := n.data, daemon := true,
                  selected := n.selected, level := n.level }),
         Event.dataChanged n.data d none]) := by
  refine ⟨?_, ?_, ?_⟩
  · simp [RowNode.setDataAndId, RowNode.setId, RowNode.createDaemonNode, hresolver, hid]
  · by_cases h : n.eventService.isSome <;>
      simp [RowNode.setDataAndId, RowNode.setId, RowNode.createDaemonNode, hresolver, hid, h]
  · intro h
    simp [RowNode.setDataAndId, RowNode.setId, RowNode.createDaemonNode, hresolver, hid, h]

/-- Witness for C8, realising the spec scenario: node with id 5 and data D,
selected; after `setDataAndId(D2, 7)` the live node has id 7 and data D2
while the daemon passed to the registry has id 5, data D, selected, daemon. -/
theorem setDataAndId_daemon_spec_witness :
    nC8.id = some ("5") ∧
    (RowNode.setDataAndId {} nC8 (some [(("y"), 2)]) (some ("7"))).1 =
      { nC8 with data := some [(("y"), 2)], id := some ("7") } ∧
    (RowNode.setDataAndId {} nC8 (some [(("y"), 2)]) (some ("7"))).2.head? =
      some (Event.syncInRowNode { nC8 with data := some [(("y"), 2)], id := some ("7") }
        (some { newRowNode with
                id := some ("5"), data := nC8.data, daemon := true,
                selected := nC8.selected, level := nC8.level })) :=
  ⟨rfl, (setDataAndId_daemon_spec {} nC8 (some [(("y"), 2)]) ("7") ("5") rfl rfl).1,
    (setDataAndId_daemon_spec {} nC8 (some [(("y"), 2)]) ("7") ("5") rfl rfl).2.1⟩

/-- C9 (confirmed): `removeEventListener` dereferences the lazily created
listener registry without a guard, so on a node on which `addEventListener`
was never called it fails (`none` models the thrown `TypeError`), while
`addEventListener` itself always leaves a registry in place. -/
theorem removeEventListener_unguarded_spec (n : RowNode) (t : String) (l : Nat)
    (h : n.eventService = none) :
    RowNode.removeEventListener n t l = none ∧
    (RowNode.addEventListener n t l).eventService.isSome = true := by
  constructor
  · simp [RowNode.removeEventListener, h]
  · simp [RowNode.addEventListener]

/-- Witness for C9: a freshly constructed node has no registry and the call
fails. -/
theorem removeEventListener_unguarded_spec_witness :
    newRowNode.eventService = none ∧
    RowNode.removeEventListener newRowNode ("x") 0 = none :=
  ⟨rfl, (removeEventListener_unguarded_spec newRowNode ("x") 0 rfl).1⟩

/-- C10 (confirmed): `setData` and `updateData` change only the `data` field
and dispatch one local `dataChanged` event — with `update = false`
respectively `update = true` — exactly when the listener registry exists;
they never call the selection registry's `syncInRowNode` (and, as the
returned node is the input node with only `data` replaced, they create no
daemon and touch no other field). -/
theorem setData_updateData_frame_spec (n : RowNode) (d : Option Obj) :
    RowNode.setData n d = ({ n with data := d },
      if n.eventService.isSome then [Event.dataChanged n.data d (some false)] else []) ∧
    RowNode.updateData n d = ({ n with data := d },
      if n.eventService.isSome then [Event.dataChanged n.data d (some true)] else []) ∧
    (∀ live dmn, Event.syncInRowNode live dmn ∉ (RowNode.setData n d).2) ∧
    (∀ live dmn, Event.syncInRowNode live dmn ∉ (RowNode.updateData n d).2) := by
  refine ⟨rfl, rfl, ?_, ?_⟩ <;> intro live dmn <;>
    by_cases h : n.eventService.isSome <;>
    simp [RowNode.setData, RowNode.updateData, h]

/-- Witness for C10 at a concrete node with a listener registry. -/
theorem setData_updateData_frame_spec_witness :
    RowNode.setData nC10 none =
      ({ nC10 with data := none }, [Event.dataChanged nC10.data none (some false)]) ∧
    Event.syncInRowNode newRowNode none ∉ (RowNode.setData nC10 none).2 := by
  constructor
  · have h := (setData_updateData_frame_spec nC10 none).1
    simpa using h
  · exact (setData_updateData_frame_spec nC10 none).2.2.1 newRowNode none
